import Mathlib

/-!
Shallow embedding of the joystick library (src/js.h, src/f710.h).

The library folds Linux joystick events into a `JsState` record
(`js_update_state`), runs a background event-handler loop
(`js_event_handler_main`), and maintains an asynchronously updated state
behind a mutex (`js_create_async_state`, `js_query_async_state`).

Modelling conventions:
* `struct js_event` (Linux kernel) becomes `JsEvent`, with `time : Nat`
  (the C `__u32`), `value : Int` (the C `__s16`), `type : Nat` (the C
  `__u8` bitmask) and `number : Nat` (the C `__u8`).
* `JsState.buttons` is the C `uint32_t` bitset, represented as a `Nat`;
  the store `buttons |= (1 << n)` is modelled with an explicit `% 2 ^ 32`
  for the 32-bit store, and `buttons &= ~(1 << n)` with the 32-bit
  complement `(2 ^ 32 - 1) ^^^ (1 <<< n)`.
* `JsState.axes` is the C `int16_t axes[8]`, represented as a `List Int`.
* The event source (`js_get_event` over a file descriptor) is modelled as
  a finite trace of poll outcomes `List JsPoll`; an exhausted trace means
  the device currently has no event available.
* Thread, mutex and join primitives succeed or fail by explicit boolean
  parameters (`thread_create_ok`, `lock_ok`, ...), since their outcome is
  decided by the operating system, not by this code.
-/

/-- The `JsResult` enumeration from `src/js.h`. -/
inductive JsResult
  | success
  | nothing
  | stop
  | failure
deriving DecidableEq, Repr

/-- `JS_EVENT_BUTTON` from `<linux/joystick.h>`. -/
def JS_EVENT_BUTTON : Nat := 1

/-- `JS_EVENT_AXIS` from `<linux/joystick.h>`. -/
def JS_EVENT_AXIS : Nat := 2

/-- `JS_EVENT_INIT` from `<linux/joystick.h>`. -/
def JS_EVENT_INIT : Nat := 128

/-- `js_max_number_of_buttons` from `src/js.h` (32, the bitset width). -/
def js_max_number_of_buttons : Nat := 32

/-- `js_max_number_of_axes` from `src/js.h`. -/
def js_max_number_of_axes : Nat := 8

/-- `struct js_event` (`JsEvent` in `src/js.h`). -/
structure JsEvent where
  time : Nat
  value : Int
  type : Nat
  number : Nat
deriving DecidableEq, Repr

/-- `struct JsState` from `src/js.h`. -/
structure JsState where
  time : Nat
  buttons : Nat
  axes : List Int
deriving DecidableEq, Repr

/-- The zero-initialized state `(JsState){}` used by `js_create_async_state`. -/
def js_zero_state : JsState :=
  { time := 0, buttons := 0, axes := List.replicate js_max_number_of_axes 0 }

/-- `js_update_state` from `src/f710.h`.  Returns the C return value paired
with the state after the call (the C function mutates `*state` in place;
note that `state->time` is assigned before any validation). -/
def js_update_state (state : JsState) (event : JsEvent) : JsResult × JsState :=
  let state := { state with time := event.time }
  if event.type &&& JS_EVENT_BUTTON ≠ 0 then
    if event.number ≥ js_max_number_of_buttons then
      (JsResult.failure, state)
    else if event.value ≠ 0 then
      (JsResult.success,
        { state with buttons := (state.buttons ||| (1 <<< event.number)) % 2 ^ 32 })
    else
      (JsResult.success,
        { state with buttons := state.buttons &&& ((2 ^ 32 - 1) ^^^ (1 <<< event.number)) })
  else if event.type &&& JS_EVENT_AXIS ≠ 0 then
    if event.number ≥ js_max_number_of_axes then
      (JsResult.failure, state)
    else
      (JsResult.success, { state with axes := state.axes.set event.number event.value })
  else
    (JsResult.failure, state)

/-- One outcome of a `js_get_event` poll on the device. -/
inductive JsPoll
  | ev (e : JsEvent)
  | nothing
  | error
deriving DecidableEq, Repr

/-- The initial-event drain loop of `js_create_async_state` (`src/f710.h`):
a `do { ... } while (event.type & JS_EVENT_INIT)` loop that retrieves an
event, folds it on success (returning failure if the fold fails), breaks on
`JsResult_nothing`, returns failure on a source error, and continues only
while the event just folded carries the `JS_EVENT_INIT` flag.  An exhausted
trace behaves as a device with no event currently available. -/
def js_drain_initial : List JsPoll → JsState → Option JsState
  | [], s => some s
  | JsPoll.nothing :: _, s => some s
  | JsPoll.error :: _, _ => none
  | JsPoll.ev e :: rest, s =>
    if (js_update_state s e).1 ≠ JsResult.success then none
    else if e.type &&& JS_EVENT_INIT ≠ 0 then js_drain_initial rest (js_update_state s e).2
    else some (js_update_state s e).2

/-- `js_create_async_state` from `src/f710.h`, as the state it constructs:
zero-initializes the state, drains the initial synthetic events, then
initializes the lock and creates the event handler (each of which may fail,
by parameter).  `none` models a `JsResult_failure` return. -/
def js_create_async_state (lock_init_ok thread_create_ok : Bool)
    (source : List JsPoll) : Option JsState :=
  match js_drain_initial source js_zero_state with
  | none => none
  | some s =>
    if lock_init_ok then
      if thread_create_ok then some s else none
    else none

/-- The observable part of `struct JsEventHandler` after creation: the
atomic `is_running` flag and whether a background task exists. -/
structure JsEventHandler where
  is_running : Bool
  has_task : Bool
deriving DecidableEq, Repr

/-- `js_create_event_handler` from `src/f710.h`: sets `is_running` to true
with `atomic_init`, then calls `thrd_create` (whose outcome is the
parameter); returns the C result paired with the resulting handler.  Note
the flag is not cleared when `thrd_create` fails. -/
def js_create_event_handler (thread_create_ok : Bool) : JsResult × JsEventHandler :=
  ( if thread_create_ok then JsResult.success else JsResult.failure,
    { is_running := true, has_task := thread_create_ok } )

/-- `js_event_handler_is_running` from `src/f710.h`. -/
def js_event_handler_is_running (event_handler : JsEventHandler) : Bool :=
  event_handler.is_running

/-- One iteration's input to the `js_event_handler_main` loop: either an
event was read and the user callback returned `cb`, or no event was
available, or the source reported an unrecoverable error. -/
inductive JsLoopStep
  | got (cb : JsResult)
  | nothing
  | srcError
deriving DecidableEq, Repr

/-- `js_event_handler_main` from `src/f710.h`, driven by a finite trace of
loop inputs and the current value of the `is_running` flag.  Returns the
final value of the flag paired with the thread's exit status:
`some true` = `EXIT_SUCCESS`, `some false` = `EXIT_FAILURE`, `none` = the
trace ran out while the loop was still running.  Per the C code, falling
out of the `while` (flag cleared externally) and a callback `stop` both
exit successfully without touching the flag, while a source error or a
callback `failure` clear the flag and exit with `EXIT_FAILURE`. -/
def js_event_handler_main : List JsLoopStep → Bool → Bool × Option Bool
  | _, false => (false, some true)
  | [], true => (true, none)
  | JsLoopStep.nothing :: rest, true => js_event_handler_main rest true
  | JsLoopStep.srcError :: _, true => (false, some false)
  | JsLoopStep.got cb :: rest, true =>
    match cb with
    | JsResult.stop => (true, some true)
    | JsResult.failure => (false, some false)
    | _ => js_event_handler_main rest true

/-- `js_destroy_event_handler` from `src/f710.h`: clears the flag, joins
the thread (outcome `join_ok`) and reports success exactly when the join
succeeded and the thread returned `EXIT_SUCCESS` (`thread_exit_clean`). -/
def js_destroy_event_handler (join_ok thread_exit_clean : Bool) : JsResult :=
  if join_ok && thread_exit_clean then JsResult.success else JsResult.failure

/-- Whether a loop input lets `js_event_handler_main` continue to the next
iteration (neither exit path is taken). -/
def js_step_continues : JsLoopStep → Bool
  | JsLoopStep.nothing => true
  | JsLoopStep.srcError => false
  | JsLoopStep.got cb => !(cb = JsResult.stop || cb = JsResult.failure)

/-- `js_query_async_state` from `src/f710.h`: lock, copy the state record
by value into `*out_state`, unlock.  The second component models what was
written to `*out_state` (`none` = left untouched). -/
def js_query_async_state (lock_ok unlock_ok : Bool) (state : JsState) :
    JsResult × Option JsState :=
  if !lock_ok then (JsResult.failure, none)
  else if !unlock_ok then (JsResult.failure, some state)
  else (JsResult.success, some state)

/-- Sequential fold of a list of events into a state via `js_update_state`,
failing as soon as one fold fails.  Used to state the drain theorem. -/
def js_fold_events : JsState → List JsEvent → Option JsState
  | s, [] => some s
  | s, e :: rest =>
    if (js_update_state s e).1 ≠ JsResult.success then none
    else js_fold_events (js_update_state s e).2 rest

/-- Whether the head of a poll trace is an event without the
`JS_EVENT_INIT` flag absent, i.e. the trace does not start with an
initialization/synthetic event. -/
def js_tail_head_not_init : List JsPoll → Bool
  | JsPoll.ev e :: _ => e.type &&& JS_EVENT_INIT == 0
  | _ => true

/-- Bit `n` of the 32-bit mask `0xffffffff` is set exactly for `n < 32`. -/
theorem js_testBit_mask32 (n : Nat) : Nat.testBit 4294967295 n = decide (n < 32) := by
  have h : (4294967295 : Nat) = 2 ^ 32 - 1 := by norm_num
  rw [h, Nat.testBit_two_pow_sub_one]

/-- `testBit` through the 32-bit store's `% 2 ^ 32`, with the modulus as a
numeral. -/
theorem js_testBit_mod32 (x n : Nat) :
    Nat.testBit (x % 4294967296) n = (decide (n < 32) && x.testBit n) := by
  have h : (4294967296 : Nat) = 2 ^ 32 := by norm_num
  rw [h, Nat.testBit_mod_two_pow]

/-- C1 (counterexample): an out-of-range button event (index 32) applied to
the zero state returns `JsResult_failure` but does NOT leave the state
byte-for-byte unchanged: the `time` field has already been overwritten with
the event's timestamp. -/
theorem js_update_state_out_of_range_changes_time :
    (js_update_state { time := 0, buttons := 0, axes := List.replicate 8 0 }
        { time := 7, value := 0, type := JS_EVENT_BUTTON, number := 32 }).1 = JsResult.failure ∧
    (js_update_state { time := 0, buttons := 0, axes := List.replicate 8 0 }
        { time := 7, value := 0, type := JS_EVENT_BUTTON, number := 32 }).2 ≠
      { time := 0, buttons := 0, axes := List.replicate 8 0 } := by
  decide

/-- C1 (amended): for every state and every button event with index at or
beyond the capacity of 32, `js_update_state` returns `JsResult_failure` and
leaves `buttons` and `axes` unchanged, but sets the state's `time` field to
the event's timestamp. -/
theorem js_update_state_button_out_of_range (s : JsState) (e : JsEvent)
    (hb : e.type &&& JS_EVENT_BUTTON ≠ 0) (hn : js_max_number_of_buttons ≤ e.number) :
    js_update_state s e = (JsResult.failure, { s with time := e.time }) := by
  simp [js_update_state, hb, hn]

/-- C1 (witness): the amended theorem evaluated at a concrete state and a
concrete out-of-range button event. -/
theorem js_update_state_button_out_of_range_witness :
    ({ time := 3, value := 1, type := 129, number := 40 } : JsEvent).type &&& JS_EVENT_BUTTON ≠ 0 ∧
    js_max_number_of_buttons ≤ ({ time := 3, value := 1, type := 129, number := 40 } : JsEvent).number ∧
    js_update_state { time := 11, buttons := 5, axes := List.replicate 8 0 }
        { time := 3, value := 1, type := 129, number := 40 } =
      (JsResult.failure, { time := 3, buttons := 5, axes := List.replicate 8 0 }) :=
  ⟨by decide, by decide,
    js_update_state_button_out_of_range
      { time := 11, buttons := 5, axes := List.replicate 8 0 }
      { time := 3, value := 1, type := 129, number := 40 } (by decide) (by decide)⟩

/-- C3: when `thrd_create` fails, `js_create_event_handler` returns
`JsResult_failure` and no background task exists, but the `is_running`
flag was already set by `atomic_init` and is never cleared on this path,
so `js_event_handler_is_running` subsequently reads `true`, not `false`
as the claim states. -/
theorem js_create_event_handler_thread_failure :
    (js_create_event_handler false).1 = JsResult.failure ∧
    (js_create_event_handler false).2.has_task = false ∧
    js_event_handler_is_running (js_create_event_handler false).2 = true := by
  decide

/-- C5: for every state and button event with index below 32,
`js_update_state` succeeds, sets the state's `time` to the event's
timestamp, and bit `number` of the button bitset ends up set exactly when
the event's value is nonzero. -/
theorem js_update_state_button_in_range (s : JsState) (e : JsEvent)
    (hb : e.type &&& JS_EVENT_BUTTON ≠ 0) (hn : e.number < js_max_number_of_buttons) :
    (js_update_state s e).1 = JsResult.success ∧
    (js_update_state s e).2.time = e.time ∧
    (js_update_state s e).2.buttons.testBit e.number = decide (e.value ≠ 0) := by
  have hn32 : e.number < 32 := hn
  by_cases hv : e.value = 0
  · have hres : js_update_state s e =
        (JsResult.success,
          { s with
            time := e.time,
            buttons := s.buttons &&& ((2 ^ 32 - 1) ^^^ (1 <<< e.number)) }) := by
      simp [js_update_state, hb, Nat.not_le.2 hn, hv]
    rw [hres]
    refine ⟨rfl, rfl, ?_⟩
    rw [Nat.one_shiftLeft]
    simp [hv, Nat.testBit_and, Nat.testBit_xor, Nat.testBit_two_pow_self,
      Nat.testBit_two_pow_sub_one, js_testBit_mask32, hn32]
  · have hres : js_update_state s e =
        (JsResult.success,
          { s with
            time := e.time,
            buttons := (s.buttons ||| (1 <<< e.number)) % 2 ^ 32 }) := by
      simp [js_update_state, hb, Nat.not_le.2 hn, hv]
    rw [hres]
    refine ⟨rfl, rfl, ?_⟩
    rw [Nat.one_shiftLeft]
    simp [hv, Nat.testBit_or, Nat.testBit_two_pow_self, js_testBit_mod32, hn32]

/-- C5 (witness): the in-range button theorem evaluated at a concrete
state and event. -/
theorem js_update_state_button_in_range_witness :
    ({ time := 4, value := 1, type := 1, number := 8 } : JsEvent).type &&& JS_EVENT_BUTTON ≠ 0 ∧
    ({ time := 4, value := 1, type := 1, number := 8 } : JsEvent).number < js_max_number_of_buttons ∧
    ((js_update_state { time := 0, buttons := 2, axes := List.replicate 8 0 }
        { time := 4, value := 1, type := 1, number := 8 }).1 = JsResult.success ∧
      (js_update_state { time := 0, buttons := 2, axes := List.replicate 8 0 }
        { time := 4, value := 1, type := 1, number := 8 }).2.time = 4 ∧
      (js_update_state { time := 0, buttons := 2, axes := List.replicate 8 0 }
        { time := 4, value := 1, type := 1, number := 8 }).2.buttons.testBit 8 =
        decide ((1 : Int) ≠ 0)) :=
  ⟨by decide, by decide,
    js_update_state_button_in_range
      { time := 0, buttons := 2, axes := List.replicate 8 0 }
      { time := 4, value := 1, type := 1, number := 8 } (by decide) (by decide)⟩

/-- C6: `js_query_async_state` copies the whole state record by value when
both lock operations succeed, fails exactly when the lock or the unlock
fails, and never returns `JsResult_nothing` (no "no data" outcome). -/
theorem js_query_async_state_copies (s : JsState) (lock_ok unlock_ok : Bool) :
    js_query_async_state true true s = (JsResult.success, some s) ∧
    ((js_query_async_state lock_ok unlock_ok s).1 = JsResult.failure ↔
      lock_ok = false ∨ unlock_ok = false) ∧
    (js_query_async_state lock_ok unlock_ok s).1 ≠ JsResult.nothing := by
  refine ⟨rfl, ?_, ?_⟩ <;> cases lock_ok <;> cases unlock_ok <;>
    simp [js_query_async_state]

/-- C10: `js_update_state` classifies events with button precedence: any
event with the `JS_EVENT_BUTTON` bit set folds exactly like the pure
button event with the same fields (so `JS_EVENT_INIT`-flagged events fold
like their physical counterparts), the axis branch runs only when the
button bit is clear and the axis bit is set (again exactly like the pure
axis event), and an event with neither bit set returns
`JsResult_failure`. -/
theorem js_update_state_classification (s : JsState) (e : JsEvent) :
    js_update_state s e =
      if e.type &&& JS_EVENT_BUTTON ≠ 0 then
        js_update_state s { e with type := JS_EVENT_BUTTON }
      else if e.type &&& JS_EVENT_AXIS ≠ 0 then
        js_update_state s { e with type := JS_EVENT_AXIS }
      else
        (JsResult.failure, { s with time := e.time }) := by
  by_cases hb : e.type &&& JS_EVENT_BUTTON ≠ 0
  · simp [js_update_state, hb, JS_EVENT_BUTTON, JS_EVENT_AXIS]
  · by_cases ha : e.type &&& JS_EVENT_AXIS ≠ 0
    · simp [js_update_state, hb, ha, JS_EVENT_BUTTON, JS_EVENT_AXIS]
    · simp [js_update_state, hb, ha]

/-- Branch equation of `js_update_state`: in-range button event with
nonzero value sets the bit. -/
theorem js_update_state_button_set (s : JsState) (e : JsEvent)
    (hb : e.type &&& JS_EVENT_BUTTON ≠ 0) (hn : e.number < js_max_number_of_buttons)
    (hv : e.value ≠ 0) :
    js_update_state s e =
      (JsResult.success,
        ⟨e.time, (s.buttons ||| (1 <<< e.number)) % 2 ^ 32, s.axes⟩) := by
  cases s
  simp [js_update_state, hb, hv, Nat.not_le.2 hn]

/-- Branch equation of `js_update_state`: in-range button event with zero
value clears the bit. -/
theorem js_update_state_button_clear (s : JsState) (e : JsEvent)
    (hb : e.type &&& JS_EVENT_BUTTON ≠ 0) (hn : e.number < js_max_number_of_buttons)
    (hv : e.value = 0) :
    js_update_state s e =
      (JsResult.success,
        ⟨e.time, s.buttons &&& ((2 ^ 32 - 1) ^^^ (1 <<< e.number)), s.axes⟩) := by
  cases s
  simp [js_update_state, hb, hv, Nat.not_le.2 hn]

/-- Branch equation of `js_update_state`: in-range axis event overwrites
the slot. -/
theorem js_update_state_axis_eq (s : JsState) (e : JsEvent)
    (hb : e.type &&& JS_EVENT_BUTTON = 0) (ha : e.type &&& JS_EVENT_AXIS ≠ 0)
    (hn : e.number < js_max_number_of_axes) :
    js_update_state s e =
      (JsResult.success, ⟨e.time, s.buttons, s.axes.set e.number e.value⟩) := by
  cases s
  simp [js_update_state, hb, ha, Nat.not_le.2 hn]

/-- Setting the same bit of a 32-bit word twice is the same as setting it
once. -/
theorem js_lor_mod_idem (b m : Nat) (hb : b < 2 ^ 32) (hm : m < 2 ^ 32) :
    ((b ||| m) % 2 ^ 32 ||| m) % 2 ^ 32 = (b ||| m) % 2 ^ 32 := by
  have h1 : b ||| m < 2 ^ 32 := Nat.or_lt_two_pow hb hm
  rw [Nat.mod_eq_of_lt h1, Nat.or_assoc, Nat.or_self, Nat.mod_eq_of_lt h1]

/-- Masking with the same word twice is the same as masking once. -/
theorem js_land_idem (b c : Nat) : (b &&& c) &&& c = b &&& c := by
  rw [Nat.and_assoc, Nat.and_self]

/-- `1 <<< n` is below `2 ^ 32` for `n < 32`. -/
theorem js_one_shiftLeft_lt (n : Nat) (hn : n < 32) : 1 <<< n < 2 ^ 32 := by
  rw [Nat.one_shiftLeft]
  exact Nat.pow_lt_pow_right (by norm_num) hn

/-- Setting bit `n` of a 32-bit word does not move any other bit. -/
theorem js_testBit_or_mod (b n k : Nat) (hb : b < 2 ^ 32) (hk : k ≠ n) :
    Nat.testBit ((b ||| 1 <<< n) % 2 ^ 32) k = b.testBit k := by
  rw [Nat.one_shiftLeft, Nat.testBit_mod_two_pow, Nat.testBit_or,
    Nat.testBit_two_pow_of_ne (Ne.symm hk), Bool.or_false]
  by_cases h32 : k < 32
  · simp [h32]
  · have hbk : b < 2 ^ k :=
      lt_of_lt_of_le hb (Nat.pow_le_pow_right (by norm_num) (Nat.not_lt.1 h32))
    simp [h32, Nat.testBit_lt_two_pow hbk]

/-- Clearing bit `n` of a 32-bit word does not move any other bit. -/
theorem js_testBit_and_clear (b n k : Nat) (hb : b < 2 ^ 32) (hk : k ≠ n) :
    Nat.testBit (b &&& ((2 ^ 32 - 1) ^^^ (1 <<< n))) k = b.testBit k := by
  rw [Nat.one_shiftLeft, Nat.testBit_and, Nat.testBit_xor, Nat.testBit_two_pow_sub_one,
    Nat.testBit_two_pow_of_ne (Ne.symm hk)]
  by_cases h32 : k < 32
  · simp [h32]
  · have hbk : b < 2 ^ k :=
      lt_of_lt_of_le hb (Nat.pow_le_pow_right (by norm_num) (Nat.not_lt.1 h32))
    simp [h32, Nat.testBit_lt_two_pow hbk]

/-- C7: two axis events for the same in-range index fold by overwrite:
after folding values `v1` then `v2`, the axes array is exactly the
original array with slot `i` set to `v2`, so slot `i` holds `v2` alone,
never an accumulation. -/
theorem js_update_state_axis_overwrite (s : JsState) (e1 e2 : JsEvent)
    (h1b : e1.type &&& JS_EVENT_BUTTON = 0) (h1a : e1.type &&& JS_EVENT_AXIS ≠ 0)
    (h2b : e2.type &&& JS_EVENT_BUTTON = 0) (h2a : e2.type &&& JS_EVENT_AXIS ≠ 0)
    (hnum : e2.number = e1.number) (hn : e1.number < js_max_number_of_axes)
    (hlen : s.axes.length = js_max_number_of_axes) :
    (js_update_state s e1).1 = JsResult.success ∧
    (js_update_state (js_update_state s e1).2 e2).1 = JsResult.success ∧
    (js_update_state (js_update_state s e1).2 e2).2.axes = s.axes.set e1.number e2.value ∧
    (js_update_state (js_update_state s e1).2 e2).2.axes[e1.number]? = some e2.value := by
  have hn2 : e2.number < js_max_number_of_axes := by rw [hnum]; exact hn
  have h1 := js_update_state_axis_eq s e1 h1b h1a hn
  have h1s : (js_update_state s e1).2 =
      ⟨e1.time, s.buttons, s.axes.set e1.number e1.value⟩ := by rw [h1]
  have h2 := js_update_state_axis_eq
    (⟨e1.time, s.buttons, s.axes.set e1.number e1.value⟩ : JsState) e2 h2b h2a hn2
  have hset : (s.axes.set e1.number e1.value).set e2.number e2.value =
      s.axes.set e1.number e2.value := by rw [hnum, List.set_set]
  refine ⟨by rw [h1], by rw [h1s, h2], ?_, ?_⟩
  · rw [h1s, h2]
    exact hset
  · rw [h1s, h2]
    show ((s.axes.set e1.number e1.value).set e2.number e2.value)[e1.number]? = some e2.value
    rw [hset]
    exact List.getElem?_set_self (by rw [hlen]; exact hn)

/-- C8: folding the same in-range button event twice in a row yields
exactly the same state as folding it once. -/
theorem js_update_state_button_idempotent (s : JsState) (e : JsEvent)
    (hb : e.type &&& JS_EVENT_BUTTON ≠ 0) (hn : e.number < js_max_number_of_buttons)
    (hwf : s.buttons < 2 ^ 32) :
    (js_update_state s e).1 = JsResult.success ∧
    js_update_state (js_update_state s e).2 e = js_update_state s e := by
  have hm : 1 <<< e.number < 2 ^ 32 := js_one_shiftLeft_lt e.number hn
  by_cases hv : e.value = 0
  · have h1 := js_update_state_button_clear s e hb hn hv
    have h1s : (js_update_state s e).2 =
        ⟨e.time, s.buttons &&& ((2 ^ 32 - 1) ^^^ (1 <<< e.number)), s.axes⟩ := by rw [h1]
    have h2 := js_update_state_button_clear
      (⟨e.time, s.buttons &&& ((2 ^ 32 - 1) ^^^ (1 <<< e.number)), s.axes⟩ : JsState)
      e hb hn hv
    refine ⟨by rw [h1], ?_⟩
    rw [h1s, h2, h1]
    exact congrArg
      (fun bits => (JsResult.success, (⟨e.time, bits, s.axes⟩ : JsState)))
      (js_land_idem s.buttons ((2 ^ 32 - 1) ^^^ (1 <<< e.number)))
  · have h1 := js_update_state_button_set s e hb hn hv
    have h1s : (js_update_state s e).2 =
        ⟨e.time, (s.buttons ||| (1 <<< e.number)) % 2 ^ 32, s.axes⟩ := by rw [h1]
    have h2 := js_update_state_button_set
      (⟨e.time, (s.buttons ||| (1 <<< e.number)) % 2 ^ 32, s.axes⟩ : JsState) e hb hn hv
    refine ⟨by rw [h1], ?_⟩
    rw [h1s, h2, h1]
    exact congrArg
      (fun bits => (JsResult.success, (⟨e.time, bits, s.axes⟩ : JsState)))
      (js_lor_mod_idem s.buttons (1 <<< e.number) hwf hm)

/-- C9: a successful fold touches only the addressed slot and the time
field: an in-range button event leaves the axes array and every other
button bit unchanged, and an in-range axis event leaves the button bitset
and every other axis slot unchanged. -/
theorem js_update_state_frame (s : JsState) (e : JsEvent) (hwf : s.buttons < 2 ^ 32) :
    ((e.type &&& JS_EVENT_BUTTON ≠ 0 ∧ e.number < js_max_number_of_buttons) →
      (js_update_state s e).2.axes = s.axes ∧
      ∀ k, k ≠ e.number →
        ((js_update_state s e).2.buttons).testBit k = s.buttons.testBit k) ∧
    ((e.type &&& JS_EVENT_BUTTON = 0 ∧ e.type &&& JS_EVENT_AXIS ≠ 0 ∧
        e.number < js_max_number_of_axes) →
      (js_update_state s e).2.buttons = s.buttons ∧
      ∀ k, k ≠ e.number → (js_update_state s e).2.axes[k]? = s.axes[k]?) := by
  constructor
  · rintro ⟨hb, hn⟩
    by_cases hv : e.value = 0
    · rw [js_update_state_button_clear s e hb hn hv]
      exact ⟨rfl, fun k hk => js_testBit_and_clear s.buttons e.number k hwf hk⟩
    · rw [js_update_state_button_set s e hb hn hv]
      exact ⟨rfl, fun k hk => js_testBit_or_mod s.buttons e.number k hwf hk⟩
  · rintro ⟨hb, ha, hn⟩
    rw [js_update_state_axis_eq s e hb ha hn]
    exact ⟨rfl, fun k hk => List.getElem?_set_ne (Ne.symm hk)⟩

/-- C7 (witness): the axis-overwrite theorem evaluated at a concrete state
and two concrete axis events for slot 2 with values 100 then -300. -/
theorem js_update_state_axis_overwrite_witness :
    ({ time := 1, value := 100, type := 2, number := 2 } : JsEvent).type &&& JS_EVENT_BUTTON = 0 ∧
    ({ time := 1, value := 100, type := 2, number := 2 } : JsEvent).type &&& JS_EVENT_AXIS ≠ 0 ∧
    ({ time := 2, value := -300, type := 2, number := 2 } : JsEvent).type &&& JS_EVENT_BUTTON = 0 ∧
    ({ time := 2, value := -300, type := 2, number := 2 } : JsEvent).type &&& JS_EVENT_AXIS ≠ 0 ∧
    (2 : Nat) < js_max_number_of_axes ∧
    (List.replicate 8 (0 : Int)).length = js_max_number_of_axes ∧
    ((js_update_state { time := 0, buttons := 0, axes := List.replicate 8 0 }
        { time := 1, value := 100, type := 2, number := 2 }).1 = JsResult.success ∧
      (js_update_state
        (js_update_state { time := 0, buttons := 0, axes := List.replicate 8 0 }
          { time := 1, value := 100, type := 2, number := 2 }).2
        { time := 2, value := -300, type := 2, number := 2 }).1 = JsResult.success ∧
      (js_update_state
        (js_update_state { time := 0, buttons := 0, axes := List.replicate 8 0 }
          { time := 1, value := 100, type := 2, number := 2 }).2
        { time := 2, value := -300, type := 2, number := 2 }).2.axes =
        (List.replicate 8 0).set 2 (-300) ∧
      (js_update_state
        (js_update_state { time := 0, buttons := 0, axes := List.replicate 8 0 }
          { time := 1, value := 100, type := 2, number := 2 }).2
        { time := 2, value := -300, type := 2, number := 2 }).2.axes[(2 : Nat)]? =
        some (-300)) :=
  ⟨by decide, by decide, by decide, by decide, by decide, by decide,
    js_update_state_axis_overwrite
      { time := 0, buttons := 0, axes := List.replicate 8 0 }
      { time := 1, value := 100, type := 2, number := 2 }
      { time := 2, value := -300, type := 2, number := 2 }
      (by decide) (by decide) (by decide) (by decide) (by decide) (by decide) (by decide)⟩

/-- C8 (witness): the button-idempotence theorem evaluated at a concrete
state and a concrete button-press event. -/
theorem js_update_state_button_idempotent_witness :
    ({ time := 6, value := 1, type := 1, number := 3 } : JsEvent).type &&& JS_EVENT_BUTTON ≠ 0 ∧
    ({ time := 6, value := 1, type := 1, number := 3 } : JsEvent).number <
      js_max_number_of_buttons ∧
    ({ time := 0, buttons := 5, axes := List.replicate 8 0 } : JsState).buttons < 2 ^ 32 ∧
    ((js_update_state { time := 0, buttons := 5, axes := List.replicate 8 0 }
        { time := 6, value := 1, type := 1, number := 3 }).1 = JsResult.success ∧
      js_update_state
        (js_update_state { time := 0, buttons := 5, axes := List.replicate 8 0 }
          { time := 6, value := 1, type := 1, number := 3 }).2
        { time := 6, value := 1, type := 1, number := 3 } =
      js_update_state { time := 0, buttons := 5, axes := List.replicate 8 0 }
        { time := 6, value := 1, type := 1, number := 3 }) :=
  ⟨by decide, by decide, by decide,
    js_update_state_button_idempotent
      { time := 0, buttons := 5, axes := List.replicate 8 0 }
      { time := 6, value := 1, type := 1, number := 3 }
      (by decide) (by decide) (by decide)⟩

/-- C9 (witness): the frame theorem evaluated at a concrete state with
buttons `0b101` set. -/
theorem js_update_state_frame_witness :
    ({ time := 0, buttons := 5, axes := List.replicate 8 0 } : JsState).buttons < 2 ^ 32 ∧
    (((({ time := 9, value := 1, type := 1, number := 4 } : JsEvent).type &&&
          JS_EVENT_BUTTON ≠ 0 ∧
        ({ time := 9, value := 1, type := 1, number := 4 } : JsEvent).number <
          js_max_number_of_buttons) →
      (js_update_state { time := 0, buttons := 5, axes := List.replicate 8 0 }
          { time := 9, value := 1, type := 1, number := 4 }).2.axes = List.replicate 8 0 ∧
      ∀ k, k ≠ ({ time := 9, value := 1, type := 1, number := 4 } : JsEvent).number →
        ((js_update_state { time := 0, buttons := 5, axes := List.replicate 8 0 }
            { time := 9, value := 1, type := 1, number := 4 }).2.buttons).testBit k =
          Nat.testBit 5 k) ∧
    ((({ time := 9, value := 1, type := 1, number := 4 } : JsEvent).type &&&
          JS_EVENT_BUTTON = 0 ∧
        ({ time := 9, value := 1, type := 1, number := 4 } : JsEvent).type &&&
          JS_EVENT_AXIS ≠ 0 ∧
        ({ time := 9, value := 1, type := 1, number := 4 } : JsEvent).number <
          js_max_number_of_axes) →
      (js_update_state { time := 0, buttons := 5, axes := List.replicate 8 0 }
          { time := 9, value := 1, type := 1, number := 4 }).2.buttons = 5 ∧
      ∀ k, k ≠ ({ time := 9, value := 1, type := 1, number := 4 } : JsEvent).number →
        (js_update_state { time := 0, buttons := 5, axes := List.replicate 8 0 }
            { time := 9, value := 1, type := 1, number := 4 }).2.axes[k]? =
          (List.replicate 8 (0 : Int))[k]?)) :=
  ⟨by decide,
    js_update_state_frame
      { time := 0, buttons := 5, axes := List.replicate 8 0 }
      { time := 9, value := 1, type := 1, number := 4 }
      (by decide)⟩

/-- A prefix of loop inputs that all let the loop continue is transparent:
`js_event_handler_main` behaves on `pre ++ rest` as on `rest`. -/
theorem js_event_handler_main_append (pre rest : List JsLoopStep)
    (h : ∀ st ∈ pre, js_step_continues st = true) :
    js_event_handler_main (pre ++ rest) true = js_event_handler_main rest true := by
  induction pre with
  | nil => rfl
  | cons st pre ih =>
    have hst := h st (by simp)
    have hrest : ∀ x ∈ pre, js_step_continues x = true := fun x hx => h x (by simp [hx])
    cases st with
    | nothing => simpa [js_event_handler_main] using ih hrest
    | srcError => simp [js_step_continues] at hst
    | got cb =>
      cases cb with
      | stop => simp [js_step_continues] at hst
      | failure => simp [js_step_continues] at hst
      | success => simpa [js_event_handler_main] using ih hrest
      | nothing => simpa [js_event_handler_main] using ih hrest

/-- C4: after any run of loop inputs that keep the loop going, a callback
returning `JsResult_failure` makes `js_event_handler_main` clear the
running flag and exit with `EXIT_FAILURE`; `js_event_handler_is_running`
then reads `false`, and `js_destroy_event_handler` joining that exit
status reports `JsResult_failure` (unclean exit). -/
theorem js_event_handler_callback_failure (pre rest : List JsLoopStep)
    (h : ∀ st ∈ pre, js_step_continues st = true) :
    js_event_handler_main (pre ++ JsLoopStep.got JsResult.failure :: rest) true =
      (false, some false) ∧
    js_event_handler_is_running
      { is_running :=
          (js_event_handler_main (pre ++ JsLoopStep.got JsResult.failure :: rest) true).1,
        has_task := true } = false ∧
    js_destroy_event_handler true
      (((js_event_handler_main (pre ++ JsLoopStep.got JsResult.failure :: rest) true).2).getD
        true) = JsResult.failure := by
  have key : js_event_handler_main (pre ++ JsLoopStep.got JsResult.failure :: rest) true =
      (false, some false) := by
    rw [js_event_handler_main_append pre _ h]
    rfl
  rw [key]
  exact ⟨rfl, rfl, rfl⟩

/-- C4 (witness): the callback fails on its 5th invocation (after four
successful invocations and one empty poll); the loop exits with the flag
cleared and destroy reports an unclean exit. -/
theorem js_event_handler_callback_failure_witness :
    (∀ st ∈ [JsLoopStep.got JsResult.success, JsLoopStep.got JsResult.success,
        JsLoopStep.nothing, JsLoopStep.got JsResult.success, JsLoopStep.got JsResult.success],
      js_step_continues st = true) ∧
    (js_event_handler_main
        ([JsLoopStep.got JsResult.success, JsLoopStep.got JsResult.success,
          JsLoopStep.nothing, JsLoopStep.got JsResult.success, JsLoopStep.got JsResult.success] ++
          JsLoopStep.got JsResult.failure :: []) true = (false, some false) ∧
      js_event_handler_is_running
        { is_running :=
            (js_event_handler_main
              ([JsLoopStep.got JsResult.success, JsLoopStep.got JsResult.success,
                JsLoopStep.nothing, JsLoopStep.got JsResult.success,
                JsLoopStep.got JsResult.success] ++
                JsLoopStep.got JsResult.failure :: []) true).1,
          has_task := true } = false ∧
      js_destroy_event_handler true
        (((js_event_handler_main
            ([JsLoopStep.got JsResult.success, JsLoopStep.got JsResult.success,
              JsLoopStep.nothing, JsLoopStep.got JsResult.success,
              JsLoopStep.got JsResult.success] ++
              JsLoopStep.got JsResult.failure :: []) true).2).getD true) = JsResult.failure) :=
  ⟨by decide,
    js_event_handler_callback_failure
      [JsLoopStep.got JsResult.success, JsLoopStep.got JsResult.success,
        JsLoopStep.nothing, JsLoopStep.got JsResult.success, JsLoopStep.got JsResult.success]
      [] (by decide)⟩

/-- With the lock and the thread creation succeeding,
`js_create_async_state` is exactly the initial drain from the zero
state. -/
theorem js_create_async_state_eq_drain (source : List JsPoll) :
    js_create_async_state true true source = js_drain_initial source js_zero_state := by
  unfold js_create_async_state
  cases js_drain_initial source js_zero_state <;> rfl

/-- The drain loop on a run of `JS_EVENT_INIT`-flagged events followed by
a tail not starting with such an event: every listed event is folded in
order, the tail's head event (when present) is folded too before the loop
stops, a `nothing` poll stops the loop at once, and a fold failure or
source error yields `none`. -/
theorem js_drain_initial_characterization (events : List JsEvent)
    (tail : List JsPoll) (s : JsState)
    (hinit : ∀ e ∈ events, e.type &&& JS_EVENT_INIT ≠ 0)
    (htail : js_tail_head_not_init tail = true) :
    js_drain_initial (events.map JsPoll.ev ++ tail) s =
      match js_fold_events s events with
      | none => none
      | some s1 =>
        match tail with
        | [] => some s1
        | JsPoll.nothing :: _ => some s1
        | JsPoll.error :: _ => none
        | JsPoll.ev e :: _ =>
          if (js_update_state s1 e).1 ≠ JsResult.success then none
          else some (js_update_state s1 e).2 := by
  induction events generalizing s with
  | nil =>
    cases tail with
    | nil => rfl
    | cons p ps =>
      cases p with
      | ev e =>
        have h0 : e.type &&& JS_EVENT_INIT = 0 := by
          simpa [js_tail_head_not_init] using htail
        simp [js_drain_initial, js_fold_events, h0]
      | nothing => rfl
      | error => rfl
  | cons e es ih =>
    have he := hinit e (by simp)
    by_cases hf : (js_update_state s e).1 ≠ JsResult.success
    · simp [js_drain_initial, js_fold_events, hf, he]
    · have hfold : js_fold_events s (e :: es) = js_fold_events (js_update_state s e).2 es := by
        simp [js_fold_events, hf]
      rw [List.map_cons, List.cons_append, hfold]
      show (if (js_update_state s e).1 ≠ JsResult.success then none
          else if e.type &&& JS_EVENT_INIT ≠ 0 then
            js_drain_initial (List.map JsPoll.ev es ++ tail) (js_update_state s e).2
          else some (js_update_state s e).2) = _
      rw [if_neg hf, if_pos he]
      exact ih (js_update_state s e).2 (fun x hx => hinit x (by simp [hx]))

/-- C2 (counterexample): with a source whose very first retrieved event is
not `JS_EVENT_INIT`-flagged, `js_create_async_state` still folds that
event into the state before stopping, so the constructed state is not the
zero state that the claim (first non-flagged event not folded) requires. -/
theorem js_create_async_state_folds_first_non_init :
    js_create_async_state true true
        [JsPoll.ev { time := 5, value := 1, type := 1, number := 0 }] =
      some { time := 5, buttons := 1, axes := List.replicate 8 0 } ∧
    js_create_async_state true true
        [JsPoll.ev { time := 5, value := 1, type := 1, number := 0 }] ≠
      some js_zero_state := by
  decide

/-- C2 (amended): `js_create_async_state` zero-initializes the state and
synchronously drains the source; it folds every successive
initialization/synthetic event and also folds the first retrieved event
that is not so flagged, stopping after it; it stops immediately (folding
nothing further) when no event is available; any fold failure or source
error makes creation fail. -/
theorem js_create_async_state_drain (events : List JsEvent) (tail : List JsPoll)
    (hinit : ∀ e ∈ events, e.type &&& JS_EVENT_INIT ≠ 0)
    (htail : js_tail_head_not_init tail = true) :
    js_create_async_state true true (events.map JsPoll.ev ++ tail) =
      match js_fold_events js_zero_state events with
      | none => none
      | some s1 =>
        match tail with
        | [] => some s1
        | JsPoll.nothing :: _ => some s1
        | JsPoll.error :: _ => none
        | JsPoll.ev e :: _ =>
          if (js_update_state s1 e).1 ≠ JsResult.success then none
          else some (js_update_state s1 e).2 := by
  rw [js_create_async_state_eq_drain]
  exact js_drain_initial_characterization events tail js_zero_state hinit htail

/-- C2 (witness): the drain theorem evaluated on a source offering one
`JS_EVENT_INIT`-flagged button event followed by a plain axis event. -/
theorem js_create_async_state_drain_witness :
    (∀ e ∈ [({ time := 1, value := 1, type := 129, number := 2 } : JsEvent)],
      e.type &&& JS_EVENT_INIT ≠ 0) ∧
    js_tail_head_not_init
      [JsPoll.ev { time := 9, value := 500, type := 2, number := 0 }] = true ∧
    js_create_async_state true true
        ([({ time := 1, value := 1, type := 129, number := 2 } : JsEvent)].map JsPoll.ev ++
          [JsPoll.ev { time := 9, value := 500, type := 2, number := 0 }]) =
      match js_fold_events js_zero_state
          [({ time := 1, value := 1, type := 129, number := 2 } : JsEvent)] with
      | none => none
      | some s1 =>
        match [JsPoll.ev ({ time := 9, value := 500, type := 2, number := 0 } : JsEvent)] with
        | [] => some s1
        | JsPoll.nothing :: _ => some s1
        | JsPoll.error :: _ => none
        | JsPoll.ev e :: _ =>
          if (js_update_state s1 e).1 ≠ JsResult.success then none
          else some (js_update_state s1 e).2 :=
  ⟨by decide, by decide,
    js_create_async_state_drain
      [({ time := 1, value := 1, type := 129, number := 2 } : JsEvent)]
      [JsPoll.ev { time := 9, value := 500, type := 2, number := 0 }]
      (by decide) (by decide)⟩
